import Mathlib

/-!
Verification of the bounded multi-round tool-augmented generation orchestrator
(`AIGenerator.generate_response` / `AIGenerator._handle_tool_execution` in
`backend/ai_generator.py`).

Shallow embedding notes:
* The Anthropic model client (`self.client.messages.create`) is modelled as a
  script `Nat → Except String ModelResponse` mapping the 0-based index of the
  call to its outcome (a structured response, or a raised exception carrying a
  message).  Within one execution the sequence of requests is determined, so
  this covers clients whose replies depend on the request.
* The tool manager (`tool_manager.execute_tool(name, **input)`) is modelled as
  a function `ToolManager := String → ToolArgs → Except String String`; the
  `Except.error` case models a raised exception with message `str(e)`.
* Python dict arguments are modelled as association lists `List (String × String)`.
* The execution returns, besides the Python-level result, a trace: the list of
  requests handed to `client.messages.create` in order, and the list of
  dispatcher invocations `(name, input)` in order.
* `response.content[0].text` can raise in Python: it raises `IndexError` on
  an empty content list and `AttributeError` when the first block is a
  `tool_use` block.  This is `firstText` below, valued in `Except PyError`.
-/

deriving instance DecidableEq for Except

/-- Python-level exceptional outcomes that can escape `generate_response`. -/
inductive PyError where
  | clientError (msg : String)
  | indexError
  | attributeError
deriving DecidableEq

/-- Named arguments of a tool invocation (`content_block.input`, a dict). -/
def ToolArgs : Type := List (String × String)

instance : DecidableEq ToolArgs := by
  unfold ToolArgs
  infer_instance

/-- One dispatcher invocation as recorded in the trace: tool name and args. -/
def ToolInvocation : Type := String × ToolArgs

instance : DecidableEq ToolInvocation := by
  unfold ToolInvocation
  infer_instance

/-- `tool_manager.execute_tool(name, **input)`: returns a textual result or
raises (modelled as `Except.error` with the exception message `str(e)`). -/
def ToolManager : Type := String → ToolArgs → Except String String

/-- A content block of a model response: a text block or a `tool_use` block
with correlation id, tool name and named arguments. -/
inductive ContentBlock where
  | text (text : String)
  | tool_use (id : String) (name : String) (input : ToolArgs)
deriving DecidableEq

/-- A structured model response: `stop_reason` and the content block list. -/
structure ModelResponse where
  stop_reason : String
  content : List ContentBlock
deriving DecidableEq

/-- A `tool_result` entry of the bundled results message (the `"type"` field
is always `"tool_result"` and is left implicit). -/
structure ToolResult where
  tool_use_id : String
  content : String
deriving DecidableEq

/-- The content payload of a conversation message: the initial query string,
an assistant turn (content blocks), or a bundled tool-results turn. -/
inductive MessageContent where
  | ofText (s : String)
  | ofBlocks (bs : List ContentBlock)
  | ofResults (rs : List ToolResult)
deriving DecidableEq

/-- One conversation turn. -/
structure Message where
  role : String
  content : MessageContent
deriving DecidableEq

/-- The request handed to `client.messages.create`.  `tools = none` models an
absent `"tools"` key; `tools = some l` a present key with value `l`.  The
`tool_choice = {"type": "auto"}` entry is present exactly when `tools` is
(it always accompanies the `tools` key in the source) and is left implicit. -/
structure ApiParams where
  model : String
  temperature : Nat
  max_tokens : Nat
  messages : List Message
  system : String
  tools : Option (List String)
deriving DecidableEq

/-- The orchestrator object: only `self.model` matters for the embedding
(`self.client` is the script, `self.base_params` is rebuilt below). -/
structure AIGenerator where
  model : String
deriving DecidableEq

/-- The static system prompt (`AIGenerator.SYSTEM_PROMPT`). -/
def SYSTEM_PROMPT : String := " You are an AI assistant specialized in course materials and educational content with access to comprehensive search tools for course information.

Tool Usage Guidelines:
- **Course Outline Tool**: Use `get_course_outline` for questions asking about course structure, outlines, lesson lists, or what topics a course covers
- **Content Search Tool**: Use `search_course_content` for questions about specific course content, detailed educational materials, or information within lessons
- **Sequential Tool Usage**: You can make multiple tool calls when needed to fully answer complex questions (maximum 2 rounds)
- **Complex Query Examples**:
  - Finding courses that discuss the same topic as a specific lesson requires first getting the lesson topic, then searching for related courses
  - Comparing information across different courses may require multiple searches
  - Multi-part questions often need sequential tool usage to gather all necessary information
- Synthesize tool results into accurate, fact-based responses
- If tool yields no results, state this clearly without offering alternatives

Response Protocol:
- **General knowledge questions**: Answer using existing knowledge without using tools
- **Course outline questions**: Use outline tool first, then provide structured summary with course title, link, and complete lesson list
- **Course content questions**: Use content search tool first, then answer
- **Complex queries**: Use multiple tool calls strategically to gather all needed information before providing your final answer
- **No meta-commentary**:
 - Provide direct answers only â€” no reasoning process, search explanations, or question-type analysis
 - Do not mention \"based on the search results\"


All responses must be:
1. **Brief, Concise and focused** - Get to the point quickly
2. **Educational** - Maintain instructional value
3. **Clear** - Use accessible language
4. **Example-supported** - Include relevant examples when they aid understanding
Provide only the direct answer to what was asked.
"

/-- `response.content[0].text`: `IndexError` on an empty list,
`AttributeError` when the first block is not a text block. -/
def firstText : List ContentBlock → Except PyError String
  | [] => Except.error PyError.indexError
  | ContentBlock.text t :: _ => Except.ok t
  | ContentBlock.tool_use _ _ _ :: _ => Except.error PyError.attributeError

/-- Python truthiness of the `tools` argument (`if tools:`): `None` and the
empty list are falsy. -/
def toolsTruthy : Option (List String) → Bool
  | none => false
  | some ts => !ts.isEmpty

/-- The loop of lines 125-148 of the source: walk the content blocks, invoke
the dispatcher on each `tool_use` block in order, catching raised errors as
`"Error executing tool: " ++ msg` results.  Returns the accumulated
`tool_results` list and the list of dispatcher invocations, both in block
order. -/
def runToolCalls (mgr : ToolManager) : List ContentBlock → List ToolResult × List ToolInvocation
  | [] => ([], [])
  | block :: rest =>
    match block with
    | ContentBlock.text _ => runToolCalls mgr rest
    | ContentBlock.tool_use id name input =>
      let tool_result : ToolResult :=
        match mgr name input with
        | Except.ok r => { tool_use_id := id, content := r }
        | Except.error e => { tool_use_id := id, content := "Error executing tool: " ++ e }
      (tool_result :: (runToolCalls mgr rest).1, (name, input) :: (runToolCalls mgr rest).2)

/-- `max_rounds = 2` (line 113 of the source). -/
def max_rounds : Nat := 2

/-- The `for round_number in range(1, max_rounds + 1)` loop of
`_handle_tool_execution` (lines 116-171), with `fuel` the number of loop
iterations still allowed (`max_rounds + 1 - round_number`).  The round number
doubles as the 0-based index of the next model call: the initial call is call
0, and the call issued inside round `k` is call `k`.  Returns the Python
result together with the model calls issued and the dispatcher invocations
made from this point on. -/
def handle_rounds (client : Nat → Except String ModelResponse) (mgr : ToolManager)
    (base_params : ApiParams) :
    Nat → Nat → List Message → ModelResponse →
      Except PyError String × List ApiParams × List ToolInvocation
  | 0, _, _, current_response => (firstText current_response.content, [], [])
  | fuel + 1, round_number, messages, current_response =>
    if current_response.stop_reason ≠ "tool_use" then
      (firstText current_response.content, [], [])
    else
      let messages1 := messages ++
        [{ role := "assistant", content := MessageContent.ofBlocks current_response.content }]
      let tr := runToolCalls mgr current_response.content
      let messages2 :=
        if tr.1.isEmpty then messages1
        else messages1 ++ [{ role := "user", content := MessageContent.ofResults tr.1 }]
      let next_params : ApiParams :=
        { model := base_params.model
          temperature := 0
          max_tokens := 800
          messages := messages2
          system := base_params.system
          tools := if round_number < max_rounds then some (base_params.tools.getD []) else none }
      match client round_number with
      | Except.error e =>
        (Except.ok ("Error during tool execution round " ++ toString round_number ++ ": " ++ e),
         [next_params], tr.2)
      | Except.ok resp =>
        let rec_result := handle_rounds client mgr base_params fuel (round_number + 1) messages2 resp
        (rec_result.1, next_params :: rec_result.2.1, tr.2 ++ rec_result.2.2)

/-- `AIGenerator._handle_tool_execution` (lines 96-174): starts the round loop
at round 1 with the existing messages and the initial (tool-requesting)
response. -/
def handle_tool_execution (client : Nat → Except String ModelResponse) (mgr : ToolManager)
    (base_params : ApiParams) (initial_response : ModelResponse) :
    Except PyError String × List ApiParams × List ToolInvocation :=
  handle_rounds client mgr base_params max_rounds 1 base_params.messages initial_response

/-- Lines 67-84 of the source: the system content (static prompt, optionally
extended with the truthy conversation history) and the initial `api_params`
request. -/
def initial_params (g : AIGenerator) (query : String) (conversation_history : Option String)
    (tools : Option (List String)) : ApiParams :=
  let system_content :=
    match conversation_history with
    | some h =>
      if h = "" then SYSTEM_PROMPT
      else SYSTEM_PROMPT ++ "\n\nPrevious conversation:\n" ++ h
    | none => SYSTEM_PROMPT
  { model := g.model
    temperature := 0
    max_tokens := 800
    messages := [{ role := "user", content := MessageContent.ofText query }]
    system := system_content
    tools := if toolsTruthy tools then tools else none }

/-- `AIGenerator.generate_response` (lines 47-94).  The result is the returned
string (`Except.ok`) or the propagated Python exception (`Except.error`); the
second and third components are the trace of model calls and of dispatcher
invocations. -/
def generate_response (g : AIGenerator) (client : Nat → Except String ModelResponse)
    (query : String) (conversation_history : Option String)
    (tools : Option (List String)) (tool_manager : Option ToolManager) :
    Except PyError String × List ApiParams × List ToolInvocation :=
  let api_params : ApiParams := initial_params g query conversation_history tools
  match client 0 with
  | Except.error e => (Except.error (PyError.clientError e), [api_params], [])
  | Except.ok response =>
    match tool_manager with
    | some mgr =>
      if response.stop_reason = "tool_use" then
        let r := handle_tool_execution client mgr api_params response
        (r.1, api_params :: r.2.1, r.2.2)
      else (firstText response.content, [api_params], [])
    | none => (firstText response.content, [api_params], [])

/-- Spec-side view: the tool invocation requests `(id, name, input)` contained
in a content block list, in the order they appear. -/
def toolUseRequests : List ContentBlock → List (String × String × ToolArgs)
  | [] => []
  | ContentBlock.text _ :: rest => toolUseRequests rest
  | ContentBlock.tool_use id name input :: rest => (id, name, input) :: toolUseRequests rest

/-- Spec-side view: the content a single dispatcher invocation contributes to
the bundled results message (result text, or the synthesized error string). -/
def execContent (mgr : ToolManager) (name : String) (input : ToolArgs) : String :=
  match mgr name input with
  | Except.ok r => r
  | Except.error e => "Error executing tool: " ++ e

/-! Concrete fixtures used by the witness and counterexample theorems. -/
def gen0 : AIGenerator := { model := "m" }

def blockA : ContentBlock :=
  ContentBlock.tool_use "t1" "search_course_content" [("query", "machine learning")]

def respTool : ModelResponse := { stop_reason := "tool_use", content := [blockA] }

def respEnd : ModelResponse := { stop_reason := "end_turn", content := [ContentBlock.text "final answer"] }

def respToolNoReq : ModelResponse := { stop_reason := "tool_use", content := [ContentBlock.text "considering"] }

def mgrOk : ToolManager := fun _ _ => Except.ok "Course content about ML algorithms..."

def mgrFail : ToolManager := fun _ _ => Except.error "Tool failed!"

def scriptOneRound : Nat → Except String ModelResponse := fun n =>
  match n with
  | 0 => Except.ok respTool
  | _ => Except.ok respEnd

def scriptAllTools : Nat → Except String ModelResponse := fun _ => Except.ok respTool

def scriptNoReq : Nat → Except String ModelResponse := fun n =>
  match n with
  | 0 => Except.ok respToolNoReq
  | _ => Except.ok respEnd

def scriptTwoRounds : Nat → Except String ModelResponse := fun n =>
  match n with
  | 0 => Except.ok respTool
  | 1 => Except.ok respTool
  | _ => Except.ok respEnd

def scriptFailRound1 : Nat → Except String ModelResponse := fun n =>
  match n with
  | 0 => Except.ok respTool
  | _ => Except.error "boom"

def scriptInitFail : Nat → Except String ModelResponse := fun _ => Except.error "network down"

/-- Spec-side predicate: each successive model call's conversation extends
the previous one, starting from `m`, by exactly one assistant turn holding —
verbatim — the content of the model response that the client actually
returned for call `k` (the response processed by that round), followed by
exactly one user turn bundling that same turn's tool results; nothing is
removed or reordered. -/
def roundChainFrom (client : Nat → Except String ModelResponse) (mgr : ToolManager) :
    Nat → List Message → List ApiParams → Prop
  | _, _, [] => True
  | k, m, p :: ps =>
    (∃ r : ModelResponse, client k = Except.ok r ∧ r.stop_reason = "tool_use" ∧
      p.messages = m ++
        [{ role := "assistant", content := MessageContent.ofBlocks r.content },
          { role := "user", content := MessageContent.ofResults (runToolCalls mgr r.content).1 }]) ∧
    roundChainFrom client mgr (k + 1) p.messages ps
/-- The round loop issues at most `fuel` further model calls. -/
lemma handle_rounds_length (client : Nat → Except String ModelResponse) (mgr : ToolManager)
    (base_params : ApiParams) :
    ∀ (fuel round_number : Nat) (messages : List Message) (cur : ModelResponse),
      ((handle_rounds client mgr base_params fuel round_number messages cur).2.1).length ≤ fuel := by
  intro fuel
  induction fuel with
  | zero =>
    intro rn msgs cur
    simp [handle_rounds]
  | succ n ih =>
    intro rn msgs cur
    by_cases hs : cur.stop_reason = "tool_use"
    · simp only [handle_rounds, hs, ne_eq, not_true_eq_false, if_false]
      cases hc : client rn with
      | error e =>
        simp
      | ok resp =>
        simp [hc]
        split
        · exact ih _ _ _
        · exact ih _ _ _
    · simp [handle_rounds, hs]

/-- Every model call the round loop issues from round `max_rounds` on carries
no tool schemas: in the calls it returns, those past position
`max_rounds - round_number` have `tools = none`. -/
lemma handle_rounds_tools_none (client : Nat → Except String ModelResponse) (mgr : ToolManager)
    (base_params : ApiParams) :
    ∀ (fuel round_number : Nat) (messages : List Message) (cur : ModelResponse),
      ∀ p ∈ ((handle_rounds client mgr base_params fuel round_number messages cur).2.1).drop
          (max_rounds - round_number),
        p.tools = none := by
  intro fuel
  induction fuel with
  | zero =>
    intro rn msgs cur p hp
    simp [handle_rounds] at hp
  | succ n ih =>
    intro rn msgs cur p hp
    by_cases hs : cur.stop_reason = "tool_use"
    · simp only [handle_rounds, hs, ne_eq, not_true_eq_false, if_false] at hp
      rcases hc : client rn with e | resp
      · rw [hc] at hp
        simp only [] at hp
        by_cases hrn : rn < max_rounds
        · have h1 : 1 ≤ max_rounds - rn := by omega
          rw [List.drop_eq_nil_of_le (by simpa using h1)] at hp
          simp at hp
        · have : max_rounds - rn = 0 := by omega
          rw [this] at hp
          simp at hp
          rcases hp with hp
          simp [hp, hrn]
      · rw [hc] at hp
        simp only [] at hp
        by_cases hrn : rn < max_rounds
        · have h1 : max_rounds - rn = (max_rounds - (rn + 1)) + 1 := by omega
          rw [h1, List.drop_succ_cons] at hp
          exact ih (rn + 1) _ resp p hp
        · have h0 : max_rounds - rn = 0 := by omega
          have h0' : max_rounds - (rn + 1) = 0 := by omega
          rw [h0] at hp
          rcases List.mem_cons.mp (by simpa using hp) with h | h
          · simp [h, hrn]
          · refine ih (rn + 1)
              (if (runToolCalls mgr cur.content).1 = [] then
                msgs ++ [{ role := "assistant", content := MessageContent.ofBlocks cur.content }]
              else
                msgs ++
                  [{ role := "assistant", content := MessageContent.ofBlocks cur.content },
                    { role := "user", content := MessageContent.ofResults (runToolCalls mgr cur.content).1 }])
              resp p ?_
            rw [h0']
            simpa using h
    · simp [handle_rounds, hs] at hp

lemma initial_params_messages (g : AIGenerator) (q : String) (ch : Option String)
    (ts : Option (List String)) :
    (initial_params g q ch ts).messages = [{ role := "user", content := MessageContent.ofText q }] := by
  simp [initial_params]

/-- C1: for every query (whether or not the model requests tools), the total
number of model calls made by `generate_response` is at most
`1 + max_rounds = 3`, and every model call past the second one — in
particular the call immediately following round `max_rounds` — carries no
tool schemas. -/
theorem c1_tool_schema_budget (g : AIGenerator) (client : Nat → Except String ModelResponse)
    (query : String) (hist : Option String) (tools : Option (List String))
    (tm : Option ToolManager) :
    ((generate_response g client query hist tools tm).2.1).length ≤ 1 + max_rounds ∧
      ∀ p ∈ ((generate_response g client query hist tools tm).2.1).drop 2, p.tools = none := by
  simp only [generate_response]
  cases hc : client 0 with
  | error e => simp [max_rounds]
  | ok resp =>
    cases tm with
    | none => simp [max_rounds]
    | some mgr =>
      by_cases hs : resp.stop_reason = "tool_use"
      · simp only [hs, if_true, handle_tool_execution]
        constructor
        · have hl := handle_rounds_length client mgr (initial_params g query hist tools)
            max_rounds 1 (initial_params g query hist tools).messages resp
          simp only [List.length_cons]
          omega
        · intro p hp
          have h2 := handle_rounds_tools_none client mgr (initial_params g query hist tools)
            max_rounds 1 (initial_params g query hist tools).messages resp p
          have hmr : max_rounds - 1 = 1 := by simp [max_rounds]
          rw [hmr] at h2
          exact h2 (by simpa using hp)
      · simp [hs, max_rounds]

/-- The single pass of the source loop over the content blocks is an
order-preserving map over the tool invocation requests: the dispatcher is
invoked once per request in request order, and the results carry the
requests' correlation tokens in that same order. -/
lemma runToolCalls_eq_map (mgr : ToolManager) (blocks : List ContentBlock) :
    runToolCalls mgr blocks =
      ((toolUseRequests blocks).map
          (fun r => { tool_use_id := r.1, content := execContent mgr r.2.1 r.2.2 }),
        (toolUseRequests blocks).map (fun r => (r.2.1, r.2.2))) := by
  induction blocks with
  | nil => simp [runToolCalls, toolUseRequests]
  | cons b rest ih =>
    cases b with
    | text t => simp [runToolCalls, toolUseRequests, ih]
    | tool_use i n a =>
      cases hmgr : mgr n a <;>
        simp [runToolCalls, toolUseRequests, ih, execContent, hmgr]

lemma mem_toolUseRequests (blocks : List ContentBlock) (i n : String) (a : ToolArgs)
    (h : ContentBlock.tool_use i n a ∈ blocks) : (i, n, a) ∈ toolUseRequests blocks := by
  induction blocks with
  | nil => simp at h
  | cons b rest ih =>
    rcases List.mem_cons.mp h with h1 | h1
    · rw [← h1]
      simp [toolUseRequests]
    · cases b with
      | text t => simpa [toolUseRequests] using ih h1
      | tool_use j m c =>
        simp only [toolUseRequests, List.mem_cons]
        exact Or.inr (ih h1)

lemma mem_runToolCalls_results (mgr : ToolManager) (blocks : List ContentBlock)
    (i n : String) (a : ToolArgs) (h : ContentBlock.tool_use i n a ∈ blocks) :
    ({ tool_use_id := i, content := execContent mgr n a } : ToolResult)
      ∈ (runToolCalls mgr blocks).1 := by
  rw [runToolCalls_eq_map]
  exact List.mem_map.mpr ⟨(i, n, a), mem_toolUseRequests blocks i n a h, rfl⟩

lemma runToolCalls_results_ne_nil (mgr : ToolManager) (blocks : List ContentBlock)
    (i n : String) (a : ToolArgs) (h : ContentBlock.tool_use i n a ∈ blocks) :
    (runToolCalls mgr blocks).1 ≠ [] :=
  List.ne_nil_of_mem (mem_runToolCalls_results mgr blocks i n a h)

/-- C2: in any round, a dispatcher failure on a requested tool does not make
`generate_response` raise: the failure is replaced by a ToolResult whose
content is `"Error executing tool: "` followed by the failure message, keyed
to the same correlation token, bundled into the user turn handed to the next
model call — and that next model call is indeed issued. -/
theorem c2_tool_failure_recovered (g : AIGenerator) (client : Nat → Except String ModelResponse)
    (query : String) (hist : Option String) (tools : Option (List String)) (mgr : ToolManager)
    (r0 r1 : ModelResponse) (i n : String) (a : ToolArgs) (msg : String)
    (hmgr : mgr n a = Except.error msg)
    (h0 : client 0 = Except.ok r0) (hs0 : r0.stop_reason = "tool_use") :
    (ContentBlock.tool_use i n a ∈ r0.content →
      ({ tool_use_id := i, content := "Error executing tool: " ++ msg } : ToolResult)
          ∈ (runToolCalls mgr r0.content).1 ∧
        2 ≤ ((generate_response g client query hist tools (some mgr)).2.1).length ∧
        (((generate_response g client query hist tools (some mgr)).2.1).get? 1).map
            ApiParams.messages =
          some [{ role := "user", content := MessageContent.ofText query },
            { role := "assistant", content := MessageContent.ofBlocks r0.content },
            { role := "user", content := MessageContent.ofResults (runToolCalls mgr r0.content).1 }]) ∧
    (client 1 = Except.ok r1 → r1.stop_reason = "tool_use" →
      ContentBlock.tool_use i n a ∈ r1.content →
      ({ tool_use_id := i, content := "Error executing tool: " ++ msg } : ToolResult)
          ∈ (runToolCalls mgr r1.content).1 ∧
        3 ≤ ((generate_response g client query hist tools (some mgr)).2.1).length ∧
        (((generate_response g client query hist tools (some mgr)).2.1).get? 2).map
            ApiParams.messages =
          (((generate_response g client query hist tools (some mgr)).2.1).get? 1).map
            (fun p => p.messages ++
              [{ role := "assistant", content := MessageContent.ofBlocks r1.content },
                { role := "user", content := MessageContent.ofResults (runToolCalls mgr r1.content).1 }])) := by
  have herr : ({ tool_use_id := i, content := "Error executing tool: " ++ msg } : ToolResult)
      = { tool_use_id := i, content := execContent mgr n a } := by
    simp [execContent, hmgr]
  constructor
  · intro hmem
    have hres := mem_runToolCalls_results mgr r0.content i n a hmem
    rw [← herr] at hres
    have hne : (runToolCalls mgr r0.content).1 ≠ [] := List.ne_nil_of_mem hres
    refine ⟨hres, ?_, ?_⟩ <;>
      simp only [generate_response, h0, hs0, handle_tool_execution, max_rounds,
        handle_rounds, ne_eq, not_true_eq_false, if_false, initial_params_messages] <;>
      cases hc1 : client 1 <;>
      simp [hne, initial_params_messages]
  · intro hc1 hs1 hmem
    have hres := mem_runToolCalls_results mgr r1.content i n a hmem
    rw [← herr] at hres
    have hne1 : (runToolCalls mgr r1.content).1 ≠ [] := List.ne_nil_of_mem hres
    refine ⟨hres, ?_, ?_⟩ <;>
      simp only [generate_response, h0, hs0, handle_tool_execution, max_rounds,
        handle_rounds, ne_eq, not_true_eq_false, if_false, initial_params_messages] <;>
      simp only [hc1, hs1] <;>
      cases hc2 : client 2 <;>
      by_cases hne0 : (runToolCalls mgr r0.content).1 = [] <;>
      simp [hne1, hne0, handle_rounds, hs1, hc2, initial_params_messages]

theorem c2_tool_failure_recovered_witness :
    (({ tool_use_id := "t1", content := "Error executing tool: Tool failed!" } : ToolResult)
        ∈ (runToolCalls mgrFail respTool.content).1 ∧
      2 ≤ ((generate_response gen0 scriptTwoRounds "q" none (some ["T"]) (some mgrFail)).2.1).length ∧
      (((generate_response gen0 scriptTwoRounds "q" none (some ["T"]) (some mgrFail)).2.1).get? 1).map
          ApiParams.messages =
        some [{ role := "user", content := MessageContent.ofText "q" },
          { role := "assistant", content := MessageContent.ofBlocks respTool.content },
          { role := "user", content := MessageContent.ofResults (runToolCalls mgrFail respTool.content).1 }]) ∧
    (({ tool_use_id := "t1", content := "Error executing tool: Tool failed!" } : ToolResult)
        ∈ (runToolCalls mgrFail respTool.content).1 ∧
      3 ≤ ((generate_response gen0 scriptTwoRounds "q" none (some ["T"]) (some mgrFail)).2.1).length ∧
      (((generate_response gen0 scriptTwoRounds "q" none (some ["T"]) (some mgrFail)).2.1).get? 2).map
          ApiParams.messages =
        (((generate_response gen0 scriptTwoRounds "q" none (some ["T"]) (some mgrFail)).2.1).get? 1).map
          (fun p => p.messages ++
            [{ role := "assistant", content := MessageContent.ofBlocks respTool.content },
              { role := "user", content := MessageContent.ofResults (runToolCalls mgrFail respTool.content).1 }])) := by
  have h := c2_tool_failure_recovered gen0 scriptTwoRounds "q" none (some ["T"]) mgrFail
    respTool respTool "t1" "search_course_content" [("query", "machine learning")] "Tool failed!"
    rfl rfl rfl
  exact ⟨h.1 (by decide), h.2 rfl rfl (by decide)⟩

/-- C3: if the model call issued inside round `k` of the tool loop raises,
`generate_response` returns a string naming round `k` and the failure
message, and makes no further model calls and no further tool invocations
(the trace ends with round `k`'s call and the tool invocations of rounds
`1..k`). -/
theorem c3_model_call_failure (g : AIGenerator) (client : Nat → Except String ModelResponse)
    (query : String) (hist : Option String) (tools : Option (List String)) (mgr : ToolManager)
    (r0 r1 : ModelResponse) (e : String)
    (h0 : client 0 = Except.ok r0) (hs0 : r0.stop_reason = "tool_use") :
    (client 1 = Except.error e →
      (generate_response g client query hist tools (some mgr)).1 =
          Except.ok ("Error during tool execution round " ++ toString 1 ++ ": " ++ e) ∧
        ((generate_response g client query hist tools (some mgr)).2.1).length = 2 ∧
        (generate_response g client query hist tools (some mgr)).2.2 =
          (runToolCalls mgr r0.content).2) ∧
    (client 1 = Except.ok r1 → r1.stop_reason = "tool_use" → client 2 = Except.error e →
      (generate_response g client query hist tools (some mgr)).1 =
          Except.ok ("Error during tool execution round " ++ toString 2 ++ ": " ++ e) ∧
        ((generate_response g client query hist tools (some mgr)).2.1).length = 3 ∧
        (generate_response g client query hist tools (some mgr)).2.2 =
          (runToolCalls mgr r0.content).2 ++ (runToolCalls mgr r1.content).2) := by
  constructor
  · intro hc1
    refine ⟨?_, ?_, ?_⟩ <;>
      simp only [generate_response, h0, hs0, handle_tool_execution, max_rounds,
        handle_rounds, ne_eq, not_true_eq_false, if_false] <;>
      by_cases hne0 : (runToolCalls mgr r0.content).1 = [] <;>
      simp [hne0, hc1]
  · intro hc1 hs1 hc2
    refine ⟨?_, ?_, ?_⟩ <;>
      simp only [generate_response, h0, hs0, handle_tool_execution, max_rounds,
        handle_rounds, ne_eq, not_true_eq_false, if_false] <;>
      by_cases hne0 : (runToolCalls mgr r0.content).1 = [] <;>
      by_cases hne1 : (runToolCalls mgr r1.content).1 = [] <;>
      simp [hne0, hne1, hc1, hs1, handle_rounds, hc2]

theorem c3_model_call_failure_witness :
    (generate_response gen0 scriptFailRound1 "q" none (some ["T"]) (some mgrOk)).1 =
        Except.ok "Error during tool execution round 1: boom" ∧
      ((generate_response gen0 scriptFailRound1 "q" none (some ["T"]) (some mgrOk)).2.1).length = 2 ∧
      (generate_response gen0 scriptFailRound1 "q" none (some ["T"]) (some mgrOk)).2.2 =
        (runToolCalls mgrOk respTool.content).2 :=
  (c3_model_call_failure gen0 scriptFailRound1 "q" none (some ["T"]) mgrOk
    respTool respEnd "boom" rfl rfl).1 rfl

/-- C10: a failure of the initial model call (call #1, before any tool round)
propagates out of `generate_response` as the raised exception, with no tool
invocations and no further model calls; a failure of a model call issued
inside the tool-round loop is instead caught and converted into an error
string returned to the caller. -/
theorem c10_initial_call_failure (g : AIGenerator) (client : Nat → Except String ModelResponse)
    (query : String) (hist : Option String) (tools : Option (List String))
    (tm : Option ToolManager) (mgr : ToolManager) (r0 : ModelResponse) (e : String) :
    (client 0 = Except.error e →
      (generate_response g client query hist tools tm).1 = Except.error (PyError.clientError e) ∧
        ((generate_response g client query hist tools tm).2.1).length = 1 ∧
        (generate_response g client query hist tools tm).2.2 = []) ∧
    (client 0 = Except.ok r0 → r0.stop_reason = "tool_use" → client 1 = Except.error e →
      (generate_response g client query hist tools (some mgr)).1 =
        Except.ok ("Error during tool execution round " ++ toString 1 ++ ": " ++ e)) := by
  constructor
  · intro hc0
    simp [generate_response, hc0]
  · intro h0 hs0 hc1
    simp only [generate_response, h0, hs0, handle_tool_execution, max_rounds,
      handle_rounds, ne_eq, not_true_eq_false, if_false]
    by_cases hne0 : (runToolCalls mgr r0.content).1 = [] <;>
      simp [hne0, hc1]

theorem c10_initial_call_failure_witness :
    ((generate_response gen0 scriptInitFail "q" none (some ["T"]) (some mgrOk)).1 =
        Except.error (PyError.clientError "network down") ∧
      ((generate_response gen0 scriptInitFail "q" none (some ["T"]) (some mgrOk)).2.1).length = 1 ∧
      (generate_response gen0 scriptInitFail "q" none (some ["T"]) (some mgrOk)).2.2 = []) ∧
    (generate_response gen0 scriptFailRound1 "q" none (some ["T"]) (some mgrOk)).1 =
      Except.ok "Error during tool execution round 1: boom" :=
  ⟨(c10_initial_call_failure gen0 scriptInitFail "q" none (some ["T"]) (some mgrOk) mgrOk
      respTool "network down").1 rfl,
    (c10_initial_call_failure gen0 scriptFailRound1 "q" none (some ["T"]) (some mgrOk) mgrOk
      respTool "boom").2 rfl rfl rfl⟩

/-- C5 counterexample: with no tool schemas supplied (`tools = none`) but a
dispatcher present, a scripted model response claiming `tool_use` drives
`generate_response` into the tool loop: two model calls are made, not one. -/
theorem c5_no_tools_counterexample :
    (generate_response gen0 scriptOneRound "q" none none (some mgrOk)).2.1.length = 2 ∧
      ((generate_response gen0 scriptOneRound "q" none none (some mgrOk)).2.1.get? 0).map
          ApiParams.tools = some none := by decide

/-- C5 (amended): for every query where no tool schemas are supplied, the
single model call is made without tools offered; provided the response does
not claim `tool_use` while a dispatcher is supplied, exactly one model call
is made, no tool is invoked, and the response's first text content is
returned verbatim (the unguarded first-content access otherwise). -/
theorem c5_no_tools_amended (g : AIGenerator) (client : Nat → Except String ModelResponse)
    (query : String) (hist : Option String) (tools : Option (List String))
    (tm : Option ToolManager) (r0 : ModelResponse)
    (htools : toolsTruthy tools = false)
    (h0 : client 0 = Except.ok r0)
    (hguard : r0.stop_reason ≠ "tool_use" ∨ tm = none) :
    (generate_response g client query hist tools tm).1 = firstText r0.content ∧
      ((generate_response g client query hist tools tm).2.1).length = 1 ∧
      (((generate_response g client query hist tools tm).2.1).get? 0).map ApiParams.tools =
        some none ∧
      (generate_response g client query hist tools tm).2.2 = [] := by
  rcases hguard with hg | hg
  · cases tm with
    | none => simp [generate_response, h0, initial_params, htools]
    | some mgr => simp [generate_response, h0, hg, initial_params, htools]
  · subst hg
    simp [generate_response, h0, initial_params, htools]

theorem c5_no_tools_amended_witness :
    (generate_response gen0 scriptNoReq "hello" none none none).1 =
        firstText respToolNoReq.content ∧
      ((generate_response gen0 scriptNoReq "hello" none none none).2.1).length = 1 ∧
      (((generate_response gen0 scriptNoReq "hello" none none none).2.1).get? 0).map
          ApiParams.tools = some none ∧
      (generate_response gen0 scriptNoReq "hello" none none none).2.2 = [] :=
  c5_no_tools_amended gen0 scriptNoReq "hello" none none none respToolNoReq
    rfl rfl (Or.inr rfl)

/-- C6 counterexample: when the round budget is exhausted with the model
still requesting tools and the final response's content starts with a
`tool_use` block, `generate_response` does not return that response's text:
the final text access raises `AttributeError`. -/
theorem c6_budget_exhausted_counterexample :
    (generate_response gen0 scriptAllTools "q" none (some ["T"]) (some mgrOk)).1 =
        Except.error PyError.attributeError ∧
      ((generate_response gen0 scriptAllTools "q" none (some ["T"]) (some mgrOk)).2.1).length = 3 := by
  decide

/-- C6 (amended): when the round budget is exhausted while the model still
requests tools, no further model call is made (exactly three in total), and
`generate_response` returns the final response's first text content as-is if
its first content item is a text item — otherwise the unguarded access
raises instead of returning a string. -/
theorem c6_budget_exhausted_amended (g : AIGenerator) (client : Nat → Except String ModelResponse)
    (query : String) (hist : Option String) (tools : Option (List String)) (mgr : ToolManager)
    (r0 r1 r2 : ModelResponse)
    (h0 : client 0 = Except.ok r0) (hs0 : r0.stop_reason = "tool_use")
    (h1 : client 1 = Except.ok r1) (hs1 : r1.stop_reason = "tool_use")
    (h2 : client 2 = Except.ok r2) (_hs2 : r2.stop_reason = "tool_use") :
    (generate_response g client query hist tools (some mgr)).1 = firstText r2.content ∧
      ((generate_response g client query hist tools (some mgr)).2.1).length = 3 := by
  constructor <;>
    simp only [generate_response, h0, hs0, handle_tool_execution, max_rounds,
      handle_rounds, ne_eq, not_true_eq_false, if_false] <;>
    by_cases hne0 : (runToolCalls mgr r0.content).1 = [] <;>
    by_cases hne1 : (runToolCalls mgr r1.content).1 = [] <;>
    simp [hne0, hne1, h1, hs1, handle_rounds, h2]

theorem c6_budget_exhausted_amended_witness :
    (generate_response gen0 scriptAllTools "q" none (some ["T"]) (some mgrOk)).1 =
        firstText respTool.content ∧
      ((generate_response gen0 scriptAllTools "q" none (some ["T"]) (some mgrOk)).2.1).length = 3 :=
  c6_budget_exhausted_amended gen0 scriptAllTools "q" none (some ["T"]) mgrOk
    respTool respTool respTool rfl rfl rfl rfl rfl rfl

/-- C7 counterexample: when round 1's response claims `tool_use` but contains
zero tool invocation requests, the conversation passed to the next model call
contains no bundled tool-result user turn at all (only the initial user turn
and the assistant turn) — the claimed empty bundled result turn is never
appended — and the query still completes. -/
theorem c7_empty_round_counterexample :
    (((generate_response gen0 scriptNoReq "q" none (some ["T"]) (some mgrOk)).2.1).get? 1).map
        ApiParams.messages =
      some [{ role := "user", content := MessageContent.ofText "q" },
        { role := "assistant", content := MessageContent.ofBlocks respToolNoReq.content }] ∧
    (generate_response gen0 scriptNoReq "q" none (some ["T"]) (some mgrOk)).1 =
      Except.ok "final answer" := by decide

/-- C7 (amended): in every round whose response claims `tool_use` with zero
tool invocation requests, the loop appends only the assistant turn — the
empty result bundle is skipped, so no tool-result user turn is appended —
and still issues the next model call rather than faulting. -/
theorem c7_empty_round_amended (g : AIGenerator) (client : Nat → Except String ModelResponse)
    (query : String) (hist : Option String) (tools : Option (List String)) (mgr : ToolManager)
    (r0 r1 : ModelResponse)
    (h0 : client 0 = Except.ok r0) (hs0 : r0.stop_reason = "tool_use") :
    (toolUseRequests r0.content = [] →
      2 ≤ ((generate_response g client query hist tools (some mgr)).2.1).length ∧
        (((generate_response g client query hist tools (some mgr)).2.1).get? 1).map
            ApiParams.messages =
          some [{ role := "user", content := MessageContent.ofText query },
            { role := "assistant", content := MessageContent.ofBlocks r0.content }]) ∧
    (client 1 = Except.ok r1 → r1.stop_reason = "tool_use" → toolUseRequests r1.content = [] →
      3 ≤ ((generate_response g client query hist tools (some mgr)).2.1).length ∧
        (((generate_response g client query hist tools (some mgr)).2.1).get? 2).map
            ApiParams.messages =
          (((generate_response g client query hist tools (some mgr)).2.1).get? 1).map
            (fun p => p.messages ++
              [{ role := "assistant", content := MessageContent.ofBlocks r1.content }])) := by
  constructor
  · intro hreq
    have hne0 : (runToolCalls mgr r0.content).1 = [] := by
      rw [runToolCalls_eq_map, hreq]
      simp
    refine ⟨?_, ?_⟩ <;>
      simp only [generate_response, h0, hs0, handle_tool_execution, max_rounds,
        handle_rounds, ne_eq, not_true_eq_false, if_false] <;>
      cases hc1 : client 1 <;>
      simp [hne0, initial_params_messages]
  · intro hc1 hs1 hreq
    have hne1 : (runToolCalls mgr r1.content).1 = [] := by
      rw [runToolCalls_eq_map, hreq]
      simp
    refine ⟨?_, ?_⟩ <;>
      simp only [generate_response, h0, hs0, handle_tool_execution, max_rounds,
        handle_rounds, ne_eq, not_true_eq_false, if_false] <;>
      simp only [hc1, hs1] <;>
      cases hc2 : client 2 <;>
      by_cases hne0 : (runToolCalls mgr r0.content).1 = [] <;>
      simp [hne1, hne0, handle_rounds, hs1, hc2, initial_params_messages]

theorem c7_empty_round_amended_witness :
    2 ≤ ((generate_response gen0 scriptNoReq "q" none (some ["T"]) (some mgrOk)).2.1).length ∧
      (((generate_response gen0 scriptNoReq "q" none (some ["T"]) (some mgrOk)).2.1).get? 1).map
          ApiParams.messages =
        some [{ role := "user", content := MessageContent.ofText "q" },
          { role := "assistant", content := MessageContent.ofBlocks respToolNoReq.content }] :=
  (c7_empty_round_amended gen0 scriptNoReq "q" none (some ["T"]) mgrOk
    respToolNoReq respEnd rfl rfl).1 rfl

/-- C9: `generate_response` produces a string from a final model response
only when that response's content is non-empty and begins with a text item:
the final access yields exactly `firstText`, which succeeds precisely when
the first content item is a text item, and raises (`IndexError` /
`AttributeError`) otherwise — both on the no-dispatcher path (tools requested
with `tool_manager = None`) and on the budget-exhausted path. -/
theorem c9_final_text_access (g : AIGenerator) (client : Nat → Except String ModelResponse)
    (query : String) (hist : Option String) (tools : Option (List String)) (mgr : ToolManager)
    (r0 r1 r2 : ModelResponse)
    (h0 : client 0 = Except.ok r0) (hs0 : r0.stop_reason = "tool_use")
    (h1 : client 1 = Except.ok r1) (hs1 : r1.stop_reason = "tool_use")
    (h2 : client 2 = Except.ok r2) :
    (generate_response g client query hist tools none).1 = firstText r0.content ∧
      (generate_response g client query hist tools (some mgr)).1 = firstText r2.content ∧
      ∀ (bs : List ContentBlock) (s : String),
        (firstText bs = Except.ok s ↔ bs.head? = some (ContentBlock.text s)) := by
  refine ⟨?_, ?_, ?_⟩
  · simp [generate_response, h0]
  · simp only [generate_response, h0, hs0, handle_tool_execution, max_rounds,
      handle_rounds, ne_eq, not_true_eq_false, if_false]
    by_cases hne0 : (runToolCalls mgr r0.content).1 = [] <;>
    by_cases hne1 : (runToolCalls mgr r1.content).1 = [] <;>
      simp [hne0, hne1, h1, hs1, handle_rounds, h2]
  · intro bs s
    cases bs with
    | nil => simp [firstText]
    | cons b rest =>
      cases b with
      | text t => simp [firstText]
      | tool_use i n a => simp [firstText]

theorem c9_final_text_access_witness :
    (generate_response gen0 scriptAllTools "q" none (some ["T"]) none).1 =
        firstText respTool.content ∧
      (generate_response gen0 scriptAllTools "q" none (some ["T"]) (some mgrOk)).1 =
        firstText respTool.content ∧
      (firstText respTool.content = Except.ok "z" ↔
        respTool.content.head? = some (ContentBlock.text "z")) := by
  have h := c9_final_text_access gen0 scriptAllTools "q" none (some ["T"]) mgrOk
    respTool respTool respTool rfl rfl rfl rfl rfl
  exact ⟨h.1, h.2.1, h.2.2 respTool.content "z"⟩

/-- If every tool-requesting scripted response carries at least one tool
invocation request (non-empty bundled results), the calls issued by the round
loop form a round chain over the conversation, each round's appended
assistant turn being pinned — verbatim — to the client's response for the
call that round processed. -/
lemma handle_rounds_chain_from (client : Nat → Except String ModelResponse) (mgr : ToolManager)
    (base_params : ApiParams)
    (hH : ∀ k r, client k = Except.ok r → r.stop_reason = "tool_use" →
      (runToolCalls mgr r.content).1 ≠ []) :
    ∀ (fuel k : Nat) (msgs : List Message) (cur : ModelResponse),
      client k = Except.ok cur →
      roundChainFrom client mgr k msgs
        ((handle_rounds client mgr base_params fuel (k + 1) msgs cur).2.1) := by
  intro fuel
  induction fuel with
  | zero =>
    intro k msgs cur hck
    simp [handle_rounds, roundChainFrom]
  | succ n ih =>
    intro k msgs cur hck
    by_cases hs : cur.stop_reason = "tool_use"
    · have hne := hH k cur hck hs
      simp only [handle_rounds, hs, ne_eq, not_true_eq_false, if_false]
      cases hc : client (k + 1) with
      | error e =>
        simp only [hc]
        simp [hne, roundChainFrom]
        exact ⟨cur, hck, hs, by simp⟩
      | ok resp =>
        simp only [hc]
        simp [hne, roundChainFrom]
        constructor
        · exact ⟨cur, hck, hs, by simp⟩
        · have := ih (k + 1)
            (msgs ++
              [{ role := "assistant", content := MessageContent.ofBlocks cur.content },
                { role := "user", content := MessageContent.ofResults (runToolCalls mgr cur.content).1 }])
            resp hc
          simpa using this
    · simp [handle_rounds, hs, roundChainFrom]

/-- In a round chain starting from `m`, the `i`-th call's conversation has
exactly `m.length + 2 * (i + 1)` turns. -/
lemma roundChainFrom_length (client : Nat → Except String ModelResponse) (mgr : ToolManager) :
    ∀ (calls : List ApiParams) (k : Nat) (m : List Message),
      roundChainFrom client mgr k m calls →
      ∀ (i : Nat) (p : ApiParams), calls.get? i = some p →
        p.messages.length = m.length + 2 * (i + 1) := by
  intro calls
  induction calls with
  | nil =>
    intro k m h i p hp
    simp at hp
  | cons q ps ih =>
    intro k m h i p hp
    rcases h with ⟨⟨r, _, _, hbs⟩, hchain⟩
    cases i with
    | zero =>
      have hq : q = p := by simpa using hp
      subst hq
      rw [hbs]
      simp
    | succ j =>
      have := ih (k + 1) q.messages hchain j p (by simpa using hp)
      rw [hbs] at this
      simp at this
      omega

/-- C4 counterexample: a completed round whose `tool_use` response carries
zero tool invocation requests appends only the assistant turn, so the
conversation passed to the next model call has 2 turns, not `1 + 2 * 1 = 3`:
the claimed per-round "+2 turns" accounting fails on the code. -/
theorem c4_turn_count_counterexample :
    ((generate_response gen0 scriptNoReq "q" none (some ["T"]) (some mgrOk)).2.1).length = 2 ∧
      (((generate_response gen0 scriptNoReq "q" none (some ["T"]) (some mgrOk)).2.1).get? 1).map
        (fun p => p.messages.length) = some 2 := by decide

/-- C4 (amended): provided every tool-requesting model response contains at
least one tool invocation request, the conversation grows per completed round
by exactly one assistant turn holding — verbatim — the content of the model
response the client actually returned for the call that round processed,
followed by exactly one user turn bundling that same response's tool results
(`roundChainFrom` pins each appended turn to the scripted response) — never
removed, never reordered — so the conversation passed to the call after
round `k` has exactly `1 + 2k` turns. -/
theorem c4_turn_count_amended (g : AIGenerator) (client : Nat → Except String ModelResponse)
    (query : String) (hist : Option String) (tools : Option (List String)) (mgr : ToolManager)
    (hH : ∀ k r, client k = Except.ok r → r.stop_reason = "tool_use" →
      toolUseRequests r.content ≠ []) :
    (((generate_response g client query hist tools (some mgr)).2.1).get? 0).map
        ApiParams.messages =
      some [{ role := "user", content := MessageContent.ofText query }] ∧
      roundChainFrom client mgr 0 [{ role := "user", content := MessageContent.ofText query }]
        ((generate_response g client query hist tools (some mgr)).2.1).tail ∧
      ∀ (i : Nat) (p : ApiParams),
        ((generate_response g client query hist tools (some mgr)).2.1).get? i = some p →
        p.messages.length = 1 + 2 * i := by
  have hH' : ∀ k r, client k = Except.ok r → r.stop_reason = "tool_use" →
      (runToolCalls mgr r.content).1 ≠ [] := by
    intro k r hk hs
    rw [runToolCalls_eq_map]
    simpa using hH k r hk hs
  cases hc0 : client 0 with
  | error e =>
    refine ⟨?_, ?_, ?_⟩
    · simp [generate_response, hc0, initial_params_messages]
    · simp [generate_response, hc0, roundChainFrom]
    · intro i p hp
      simp only [generate_response, hc0] at hp
      cases i with
      | zero =>
        have h1 : initial_params g query hist tools = p := by simpa using hp
        rw [← h1, initial_params_messages]
        simp
      | succ j => simp at hp
  | ok r0 =>
    by_cases hs0 : r0.stop_reason = "tool_use"
    · have hchain := handle_rounds_chain_from client mgr (initial_params g query hist tools) hH'
        max_rounds 0 (initial_params g query hist tools).messages r0 hc0
      rw [initial_params_messages] at hchain
      simp only [Nat.zero_add] at hchain
      refine ⟨?_, ?_, ?_⟩
      · simp only [generate_response, hc0, hs0, if_true]
        simp [initial_params_messages]
      · simp only [generate_response, hc0, hs0, if_true, handle_tool_execution]
        simpa using hchain
      · intro i p hp
        simp only [generate_response, hc0, hs0, if_true, handle_tool_execution] at hp
        cases i with
        | zero =>
          have : initial_params g query hist tools = p := by simpa using hp
          rw [← this, initial_params_messages]
          simp
        | succ j =>
          have hp' : ((handle_rounds client mgr (initial_params g query hist tools) max_rounds 1
              (initial_params g query hist tools).messages r0).2.1).get? j = some p := by
            simpa using hp
          have := roundChainFrom_length client mgr _ 0 _ hchain j p hp'
          simpa using this
    · refine ⟨?_, ?_, ?_⟩
      · simp [generate_response, hc0, hs0, initial_params_messages]
      · simp [generate_response, hc0, hs0, roundChainFrom]
      · intro i p hp
        simp only [generate_response, hc0, hs0, if_false] at hp
        cases i with
        | zero =>
          have h1 : initial_params g query hist tools = p := by simpa using hp
          rw [← h1, initial_params_messages]
          simp
        | succ j => simp at hp

theorem c4_turn_count_amended_witness :
    (((generate_response gen0 scriptOneRound "q" none (some ["T"]) (some mgrOk)).2.1).get? 0).map
        ApiParams.messages =
      some [{ role := "user", content := MessageContent.ofText "q" }] ∧
      roundChainFrom scriptOneRound mgrOk 0 [{ role := "user", content := MessageContent.ofText "q" }]
        ((generate_response gen0 scriptOneRound "q" none (some ["T"]) (some mgrOk)).2.1).tail ∧
      (initial_params gen0 "q" none (some ["T"])).messages.length = 1 + 2 * 0 := by
  have hH : ∀ k r, scriptOneRound k = Except.ok r → r.stop_reason = "tool_use" →
      toolUseRequests r.content ≠ [] := by
    intro k r hk hs
    cases k with
    | zero =>
      have h1 : respTool = r := Except.ok.inj hk
      subst h1
      decide
    | succ j =>
      have h1 : respEnd = r := Except.ok.inj hk
      subst h1
      exact absurd hs (by decide)
  have h := c4_turn_count_amended gen0 scriptOneRound "q" none (some ["T"]) mgrOk hH
  exact ⟨h.1, h.2.1, h.2.2 0 (initial_params gen0 "q" none (some ["T"])) rfl⟩

/-- C8: tool invocations execute strictly in the order the model listed them.
The single pass over a turn's content blocks invokes the dispatcher once per
request in request order; the recorded invocation trace begins with round 1's
requests in order (and equals round 1's followed by round 2's requests when
round 2 runs); and the bundled user turn carries the results in that same
order, keyed by the requests' correlation tokens. -/
theorem c8_tool_order (g : AIGenerator) (client : Nat → Except String ModelResponse)
    (query : String) (hist : Option String) (tools : Option (List String)) (mgr : ToolManager)
    (r0 r1 : ModelResponse)
    (h0 : client 0 = Except.ok r0) (hs0 : r0.stop_reason = "tool_use") :
    (∀ blocks : List ContentBlock,
      (runToolCalls mgr blocks).2 = (toolUseRequests blocks).map (fun r => (r.2.1, r.2.2)) ∧
        ((runToolCalls mgr blocks).1).map ToolResult.tool_use_id =
          (toolUseRequests blocks).map (fun r => r.1)) ∧
    ((generate_response g client query hist tools (some mgr)).2.2).take
        (toolUseRequests r0.content).length =
      (toolUseRequests r0.content).map (fun r => (r.2.1, r.2.2)) ∧
    (client 1 = Except.ok r1 → r1.stop_reason = "tool_use" →
      (generate_response g client query hist tools (some mgr)).2.2 =
        (toolUseRequests r0.content).map (fun r => (r.2.1, r.2.2)) ++
          (toolUseRequests r1.content).map (fun r => (r.2.1, r.2.2))) ∧
    (toolUseRequests r0.content ≠ [] →
      (((generate_response g client query hist tools (some mgr)).2.1).get? 1).map
          ApiParams.messages =
        some [{ role := "user", content := MessageContent.ofText query },
          { role := "assistant", content := MessageContent.ofBlocks r0.content },
          { role := "user", content := MessageContent.ofResults
              ((toolUseRequests r0.content).map
                (fun r => { tool_use_id := r.1, content := execContent mgr r.2.1 r.2.2 })) }]) := by
  have hinv : ∀ blocks, (runToolCalls mgr blocks).2 =
      (toolUseRequests blocks).map (fun r => (r.2.1, r.2.2)) := by
    intro blocks
    rw [runToolCalls_eq_map]
  have hres : ∀ blocks, (runToolCalls mgr blocks).1 =
      (toolUseRequests blocks).map
        (fun r => ({ tool_use_id := r.1, content := execContent mgr r.2.1 r.2.2 } : ToolResult)) := by
    intro blocks
    rw [runToolCalls_eq_map]
  refine ⟨?_, ?_, ?_, ?_⟩
  · intro blocks
    refine ⟨hinv blocks, ?_⟩
    rw [hres blocks, List.map_map]
    rfl
  · have hlen : (toolUseRequests r0.content).length =
        ((toolUseRequests r0.content).map (fun r => (r.2.1, r.2.2))).length := by simp
    simp only [generate_response, h0, hs0, if_true, handle_tool_execution, max_rounds,
      handle_rounds, ne_eq, not_true_eq_false, if_false]
    cases hc1 : client 1 with
    | error e =>
      simp only [hc1]
      rw [hinv r0.content, hlen, List.take_length]
    | ok resp =>
      simp only [hc1]
      rw [hinv r0.content, hlen, List.take_left]
  · intro hc1 hs1
    simp only [generate_response, h0, hs0, if_true, handle_tool_execution, max_rounds,
      handle_rounds, ne_eq, not_true_eq_false, if_false]
    simp only [hc1, hs1]
    cases hc2 : client 2 <;>
      simp [hc2, hinv r0.content, hinv r1.content, handle_rounds, hs1]
  · intro hreq
    have hne0 : (runToolCalls mgr r0.content).1 ≠ [] := by
      rw [hres r0.content]
      simpa using hreq
    simp only [generate_response, h0, hs0, if_true, handle_tool_execution, max_rounds,
      handle_rounds, ne_eq, not_true_eq_false, if_false]
    cases hc1 : client 1 <;>
      simp [hc1, hne0, initial_params_messages, ← hres r0.content]

theorem c8_tool_order_witness :
    ((runToolCalls mgrOk respTool.content).2 =
        (toolUseRequests respTool.content).map (fun r => (r.2.1, r.2.2)) ∧
      ((runToolCalls mgrOk respTool.content).1).map ToolResult.tool_use_id =
        (toolUseRequests respTool.content).map (fun r => r.1)) ∧
    ((generate_response gen0 scriptTwoRounds "q" none (some ["T"]) (some mgrOk)).2.2).take
        (toolUseRequests respTool.content).length =
      (toolUseRequests respTool.content).map (fun r => (r.2.1, r.2.2)) ∧
    ((generate_response gen0 scriptTwoRounds "q" none (some ["T"]) (some mgrOk)).2.2 =
      (toolUseRequests respTool.content).map (fun r => (r.2.1, r.2.2)) ++
        (toolUseRequests respTool.content).map (fun r => (r.2.1, r.2.2))) ∧
    (((generate_response gen0 scriptTwoRounds "q" none (some ["T"]) (some mgrOk)).2.1).get? 1).map
        ApiParams.messages =
      some [{ role := "user", content := MessageContent.ofText "q" },
        { role := "assistant", content := MessageContent.ofBlocks respTool.content },
        { role := "user", content := MessageContent.ofResults
            ((toolUseRequests respTool.content).map
              (fun r => { tool_use_id := r.1, content := execContent mgrOk r.2.1 r.2.2 })) }] := by
  have h := c8_tool_order gen0 scriptTwoRounds "q" none (some ["T"]) mgrOk respTool respTool rfl rfl
  exact ⟨h.1 respTool.content, h.2.1, h.2.2.1 rfl rfl, h.2.2.2 (by decide)⟩
